import Mathlib

/-!
Verification of the consensus-determination and discrepancy-analysis logic of
the wo2-segmentation-optimization repository.

The Python sources modelled here are:
  * `src/01_analysis/scripts/analysis_with_consensus.py`
    (`is_clean_validation`, `determine_consensus`, `CONSENSUS_THRESHOLD`),
  * `src/01_analysis/scripts/analysis_crowdsource_mismatches.py`
    (the per-record issue detection and `is_rejected` flag inside
    `analyze_validations`),
  * `src/01_analysis/scripts/initial_analysis.py` (`is_validation_clean`).

Modelling conventions:
  * A Python validation dict is a `ValidationRecord` whose fields are
    `Option`-typed: `none` models an absent key, mirroring `val.get(...)`.
  * Python numbers are modelled exactly: vote counts as `Nat`, the ratio
    comparisons of `determine_consensus` over `ℚ`.  The two constants the
    code compares against (`CONSENSUS_THRESHOLD = 0.6`, the factor `0.5` in
    the dominant-issue rule) are modelled as the rationals `3/5` and `1/2`.
  * A returned Python dict with a varying key set (`determine_consensus`
    returns different keys on the empty input) is a structure with
    `Option`-typed fields; `none` models an absent key.
-/

/-- One entry of the `concept_validation` list of a validation dict:
`{conceptUri, action}`.  `action` is `c.get('action')`, absent keys are
`none`.  The URI plays no role in any analysed function, so it is not
carried. -/
structure ConceptAction where
  action : Option String
deriving DecidableEq, Repr

/-- One annotator's validation of one segment, as the Python scripts read it
with `val.get(...)`.  `title_decision` models
`val.get('title_validation', {}).get('decision')` (and similarly for start
and end time); `concept_validation` is `none` when the key is absent. -/
structure ValidationRecord where
  remove_fragment : Option Bool := none
  title_decision : Option String := none
  start_time_decision : Option String := none
  end_time_decision : Option String := none
  concept_validation : Option (List ConceptAction) := none
  comment : Option String := none
deriving DecidableEq, Repr

/-- `is_clean_validation` from `analysis_with_consensus.py` (lines 66-79):
a validation is a perfect approve iff `remove_fragment` is not `True`, the
three decisions are literally `'approve'`, and, when a `concept_validation`
list is present, no entry has an action other than `'keep'`. -/
def is_clean_validation (val : ValidationRecord) : Bool :=
  if val.remove_fragment = some true then false
  else if val.title_decision ≠ some "approve" then false
  else if val.start_time_decision ≠ some "approve" then false
  else if val.end_time_decision ≠ some "approve" then false
  else
    match val.concept_validation with
    | some cs => if cs.any (fun c => c.action ≠ some "keep") then false else true
    | none => true

/-- `CONSENSUS_THRESHOLD = 0.6` from `analysis_with_consensus.py` line 15,
modelled as the exact rational `3/5`. -/
def CONSENSUS_THRESHOLD : ℚ := 3 / 5

/-- Number of clean votes: `sum(1 for v in validations if
is_clean_validation(v))` (`determine_consensus` line 90). -/
def clean_votes (validations : List ValidationRecord) : Nat :=
  (validations.filter (fun v => is_clean_validation v)).length

/-- `reject_votes = total - clean_votes` (`determine_consensus` line 91). -/
def reject_votes (validations : List ValidationRecord) : Nat :=
  validations.length - clean_votes validations

/-- `clean_ratio = clean_votes / total` (`determine_consensus` line 93). -/
def clean_ratio (validations : List ValidationRecord) : ℚ :=
  (clean_votes validations : ℚ) / (validations.length : ℚ)

/-- `reject_ratio = reject_votes / total` (`determine_consensus` line 94). -/
def reject_ratio (validations : List ValidationRecord) : ℚ :=
  (reject_votes validations : ℚ) / (validations.length : ℚ)

/-- The issue tags one record contributes to `all_issues`
(`determine_consensus` lines 104-110): nothing for a clean record, else one
tag per satisfied condition, in source order.  Line 105 tests Python
truthiness of `v.get('remove_fragment')`, which for an optional boolean is
exactly `= some true`; line 109 reads `v.get('concept_validation', [])`. -/
def consensus_issues (v : ValidationRecord) : List String :=
  if is_clean_validation v then []
  else
    (if v.remove_fragment = some true then ["REMOVE_FRAGMENT"] else []) ++
    (if v.title_decision = some "edit" then ["EDIT_TITLE"] else []) ++
    (if v.start_time_decision = some "edit" then ["EDIT_START"] else []) ++
    (if v.end_time_decision = some "edit" then ["EDIT_END"] else []) ++
    (if (v.concept_validation.getD []).any (fun c => c.action = some "remove")
       then ["REMOVE_CONCEPT"] else [])

/-- `all_issues` accumulated over the loop of `determine_consensus`
(lines 100-110): the per-record tags concatenated in input order. -/
def all_issues_of (validations : List ValidationRecord) : List String :=
  (validations.map consensus_issues).flatten

/-- `all_comments` accumulated over the loop of `determine_consensus`
(lines 101-102): every comment that is Python-truthy, i.e. present and
non-empty, in input order. -/
def all_comments_of (validations : List ValidationRecord) : List String :=
  validations.filterMap (fun v =>
    match v.comment with
    | some s => if s = "" then none else some s
    | none => none)

/-- The key order of `Counter(all_issues).items()`: the distinct elements of
the list in order of first occurrence. -/
def firstOccs (l : List String) : List String :=
  l.foldl (fun acc a => if a ∈ acc then acc else acc ++ [a]) []

/-- `dominant_issues` (`determine_consensus` line 124): the distinct tags of
`all_issues` whose count is `>= reject_votes * 0.5`.  The factor `0.5` is
exact in binary floating point, so the rational comparison is faithful. -/
def dominant_issues_of (validations : List ValidationRecord) : List String :=
  (firstOccs (all_issues_of validations)).filter
    (fun k => decide ((reject_votes validations : ℚ) * (1 / 2) ≤
      ((all_issues_of validations).count k : ℚ)))

/-- The dict returned by `determine_consensus`.  The two return statements
build different key sets, so every key that is absent on one path is an
`Option` field, `none` modelling absence: the empty-input path (line 87)
yields only `status`, `issues` and `comments`; the main path (lines 120-127)
yields `status`, `vote_split`, `total_votes`, `dominant_issues`,
`all_issues` and `comments`, but no `issues` key. -/
structure ConsensusResult where
  status : String
  vote_split : Option String := none
  total_votes : Option Nat := none
  issues : Option (List String) := none
  dominant_issues : Option (List String) := none
  all_issues : Option (List String) := none
  comments : List String
deriving DecidableEq, Repr

/-- The status chain of `determine_consensus` (lines 112-118). -/
def consensus_status (threshold : ℚ) (validations : List ValidationRecord) :
    String :=
  if clean_ratio validations ≥ threshold then "ACCEPTED"
  else if reject_ratio validations ≥ threshold then "REJECTED"
  else "CONFLICT"

/-- `determine_consensus` from `analysis_with_consensus.py` (lines 81-127).
The module-level `CONSENSUS_THRESHOLD` is made an explicit parameter so the
statements below can quantify over it; the script always calls it with
`CONSENSUS_THRESHOLD`. -/
def determine_consensus (threshold : ℚ)
    (validations : List ValidationRecord) : ConsensusResult :=
  if validations.length = 0 then
    { status := "NO_DATA", issues := some [], comments := [] }
  else
    { status := consensus_status threshold validations
      vote_split := some (toString (clean_votes validations) ++ " vs " ++
        toString (reject_votes validations))
      total_votes := some validations.length
      issues := none
      dominant_issues := some (dominant_issues_of validations)
      all_issues := some (all_issues_of validations)
      comments := all_comments_of validations }

/-- The issue detection inside `analyze_validations` of
`analysis_crowdsource_mismatches.py` (lines 55-81): `FRAGMENT_REMOVED` when
`val.get('remove_fragment', False)` is truthy, `START_TIME_EDIT` and
`TITLE_EDIT` on the literal decision `'edit'`, and one `CONCEPT_REMOVED`
entry appended for each `concept_validation` entry whose action is
`'remove'`.  The script never reads `end_time_validation`. -/
def mismatch_issues (val : ValidationRecord) : List String :=
  (if val.remove_fragment.getD false then ["FRAGMENT_REMOVED"] else []) ++
  (if val.start_time_decision = some "edit" then ["START_TIME_EDIT"] else []) ++
  (if val.title_decision = some "edit" then ["TITLE_EDIT"] else []) ++
  ((val.concept_validation.getD []).filter
      (fun c => c.action = some "remove")).map (fun _ => "CONCEPT_REMOVED")

/-- The `is_rejected` flag of `analyze_validations`
(`analysis_crowdsource_mismatches.py` line 90):
`len(issues) > 0 or (len(comment) > 5)` with `comment = val.get('comment',
'')`. -/
def mismatch_is_rejected (val : ValidationRecord) : Bool :=
  decide (0 < (mismatch_issues val).length) ||
  decide (5 < (val.comment.getD "").length)

/-- `is_validation_clean` from `initial_analysis.py` (lines 77-103): the
same five structural checks as `is_clean_validation`, followed by a sixth
check that the comment, read as `val.get('comment', '')`, is falsy or
whitespace-only (`if comment and str(comment).strip(): return False`). -/
def is_validation_clean (val : ValidationRecord) : Bool :=
  if val.remove_fragment = some true then false
  else if val.title_decision ≠ some "approve" then false
  else if val.start_time_decision ≠ some "approve" then false
  else if val.end_time_decision ≠ some "approve" then false
  else if (match val.concept_validation with
           | some cs => cs.any (fun c => c.action ≠ some "keep")
           | none => false) then false
  else if (val.comment.getD "") ≠ "" ∧ (val.comment.getD "").trim ≠ "" then
    false
  else true

/-- Concrete record approving everything: a clean validation. -/
def approveRecord : ValidationRecord :=
  { remove_fragment := some false
    title_decision := some "approve"
    start_time_decision := some "approve"
    end_time_decision := some "approve"
    concept_validation := some [⟨some "keep"⟩]
    comment := none }

/-- Concrete record whose only deviation is an end-time edit. -/
def endEditRecord : ValidationRecord :=
  { title_decision := some "approve"
    start_time_decision := some "approve"
    end_time_decision := some "edit" }

/-- Concrete record with every key absent. -/
def emptyRecord : ValidationRecord := {}

/-- Concrete record approving everything except two removed concepts. -/
def twoRemoveRecord : ValidationRecord :=
  { title_decision := some "approve"
    start_time_decision := some "approve"
    end_time_decision := some "approve"
    concept_validation := some [⟨some "remove"⟩, ⟨some "remove"⟩] }

/-- Characterization of `is_clean_validation` used throughout. -/
lemma is_clean_validation_iff (val : ValidationRecord) :
    is_clean_validation val = true ↔
      (val.remove_fragment ≠ some true ∧
       val.title_decision = some "approve" ∧
       val.start_time_decision = some "approve" ∧
       val.end_time_decision = some "approve" ∧
       ∀ c ∈ val.concept_validation.getD [], c.action = some "keep") := by
  unfold is_clean_validation
  rcases val with ⟨rf, td, sd, ed, cv, cm⟩
  dsimp only
  cases cv with
  | none => split_ifs <;> simp_all
  | some cs => split_ifs <;> simp_all

/-- C2: `is_clean_validation` returns `true` exactly when: `removeFragment`
is not true, each of the three decisions strictly equals the literal
`"approve"` (an absent value fails), and every `conceptActions` entry has
action `"keep"` (an absent or empty list passes trivially).  Totality is
inherent: the function is a Lean `def` defined on all well-typed records. -/
theorem is_clean_validation_spec (val : ValidationRecord) :
    is_clean_validation val = true ↔
      (val.remove_fragment ≠ some true ∧
       val.title_decision = some "approve" ∧
       val.start_time_decision = some "approve" ∧
       val.end_time_decision = some "approve" ∧
       ∀ c ∈ val.concept_validation.getD [], c.action = some "keep") :=
  is_clean_validation_iff val

/-- A clean record contributes no issue tags. -/
lemma consensus_issues_of_clean {v : ValidationRecord}
    (h : is_clean_validation v = true) : consensus_issues v = [] := by
  simp [consensus_issues, h]

/-- Unfolding of `consensus_issues` on a not-clean record. -/
lemma consensus_issues_of_not_clean {v : ValidationRecord}
    (h : is_clean_validation v = false) :
    consensus_issues v =
      (if v.remove_fragment = some true then ["REMOVE_FRAGMENT"] else []) ++
      (if v.title_decision = some "edit" then ["EDIT_TITLE"] else []) ++
      (if v.start_time_decision = some "edit" then ["EDIT_START"] else []) ++
      (if v.end_time_decision = some "edit" then ["EDIT_END"] else []) ++
      (if (v.concept_validation.getD []).any
           (fun c => c.action = some "remove")
         then ["REMOVE_CONCEPT"] else []) := by
  simp [consensus_issues, h]

/-- The tags contributed by a single record are pairwise distinct. -/
lemma consensus_issues_nodup (v : ValidationRecord) :
    (consensus_issues v).Nodup := by
  unfold consensus_issues
  split_ifs <;> decide

/-- Each tag occurs at most once per record, so counting is membership. -/
lemma consensus_issues_count (v : ValidationRecord) (t : String) :
    (consensus_issues v).count t =
      if t ∈ consensus_issues v then 1 else 0 := by
  by_cases h : t ∈ consensus_issues v
  · rw [if_pos h]
    exact List.count_eq_one_of_mem (consensus_issues_nodup v) h
  · rw [if_neg h]
    exact List.count_eq_zero_of_not_mem h

/-- `all_issues_of` on a cons. -/
lemma all_issues_of_cons (v : ValidationRecord)
    (vs : List ValidationRecord) :
    all_issues_of (v :: vs) = consensus_issues v ++ all_issues_of vs := by
  simp [all_issues_of]

/-- The number of occurrences of a tag in `all_issues` is the number of
dissenting (not-clean) records whose tag list contains it. -/
lemma all_issues_count (vs : List ValidationRecord) (t : String) :
    (all_issues_of vs).count t =
      (vs.filter (fun v => !is_clean_validation v &&
        decide (t ∈ consensus_issues v))).length := by
  induction vs with
  | nil => simp [all_issues_of]
  | cons v vs ih =>
    rw [all_issues_of_cons, List.count_append, ih, List.filter_cons]
    by_cases hc : is_clean_validation v
    · have h0 : t ∉ consensus_issues v := by
        simp [consensus_issues_of_clean hc]
      simp [hc, List.count_eq_zero_of_not_mem h0]
    · have hc' : is_clean_validation v = false := by
        simpa using hc
      by_cases hm : t ∈ consensus_issues v
      · simp [hc', hm, consensus_issues_count, Nat.add_comm]
      · simp [hc', hm, List.count_eq_zero_of_not_mem hm]

/-- Membership in the fold computing first occurrences. -/
lemma mem_firstOccs_aux (a : String) :
    ∀ (l acc : List String),
      (a ∈ l.foldl (fun acc b => if b ∈ acc then acc else acc ++ [b]) acc ↔
        a ∈ acc ∨ a ∈ l) := by
  intro l
  induction l with
  | nil => intro acc; simp
  | cons b l ih =>
    intro acc
    rw [List.foldl_cons, ih]
    by_cases hb : b ∈ acc
    · simp only [if_pos hb, List.mem_cons]
      constructor
      · rintro (h | h)
        · exact Or.inl h
        · exact Or.inr (Or.inr h)
      · rintro (h | h | h)
        · exact Or.inl h
        · exact Or.inl (h ▸ hb)
        · exact Or.inr h
    · simp only [if_neg hb, List.mem_append, List.mem_singleton,
        List.mem_cons]
      tauto

/-- `firstOccs` has the same members as the original list. -/
lemma mem_firstOccs {a : String} {l : List String} :
    a ∈ firstOccs l ↔ a ∈ l := by
  unfold firstOccs
  rw [mem_firstOccs_aux]
  simp

/-- On the empty input, `determine_consensus` returns only the `status`,
`issues` and `comments` keys. -/
lemma determine_consensus_nil_eq (threshold : ℚ) :
    determine_consensus threshold [] =
      { status := "NO_DATA"
        vote_split := none
        total_votes := none
        issues := some []
        dominant_issues := none
        all_issues := none
        comments := [] } := rfl

/-- On a non-empty input, `determine_consensus` takes the main path. -/
lemma determine_consensus_of_ne_nil (threshold : ℚ)
    {vs : List ValidationRecord} (h : vs ≠ []) :
    determine_consensus threshold vs =
      { status := consensus_status threshold vs
        vote_split := some (toString (clean_votes vs) ++ " vs " ++
          toString (reject_votes vs))
        total_votes := some vs.length
        issues := none
        dominant_issues := some (dominant_issues_of vs)
        all_issues := some (all_issues_of vs)
        comments := all_comments_of vs } := by
  have h0 : vs.length ≠ 0 := by
    simpa [List.length_eq_zero] using h
  simp [determine_consensus, h0]

/-- C1: on a non-empty record list, the returned status is decided by the
precedence chain: `ACCEPTED` when `cleanVotes/total >= threshold`, else
`REJECTED` when `(total - cleanVotes)/total >= threshold`, else `CONFLICT`,
where `clean_votes` counts the records `is_clean_validation` accepts. -/
theorem determine_consensus_status_spec (threshold : ℚ)
    (vs : List ValidationRecord) (h : vs ≠ []) :
    (determine_consensus threshold vs).status =
      (if (clean_votes vs : ℚ) / (vs.length : ℚ) ≥ threshold then "ACCEPTED"
       else if ((vs.length - clean_votes vs : ℕ) : ℚ) / (vs.length : ℚ) ≥
           threshold then "REJECTED"
       else "CONFLICT") ∧
    clean_votes vs =
      (vs.filter (fun v => is_clean_validation v)).length := by
  refine ⟨?_, rfl⟩
  rw [determine_consensus_of_ne_nil threshold h]
  simp [consensus_status, clean_ratio, reject_ratio, reject_votes]

/-- Witness for C1 at a concrete two-record input. -/
theorem determine_consensus_status_spec_witness :
    ([approveRecord, endEditRecord] : List ValidationRecord) ≠ [] ∧
    ((determine_consensus CONSENSUS_THRESHOLD
        [approveRecord, endEditRecord]).status =
      (if (clean_votes [approveRecord, endEditRecord] : ℚ) /
          (([approveRecord, endEditRecord] :
            List ValidationRecord).length : ℚ) ≥ CONSENSUS_THRESHOLD
       then "ACCEPTED"
       else if ((([approveRecord, endEditRecord] :
             List ValidationRecord).length -
             clean_votes [approveRecord, endEditRecord] : ℕ) : ℚ) /
           (([approveRecord, endEditRecord] :
             List ValidationRecord).length : ℚ) ≥ CONSENSUS_THRESHOLD
       then "REJECTED"
       else "CONFLICT") ∧
     clean_votes [approveRecord, endEditRecord] =
       (([approveRecord, endEditRecord] :
         List ValidationRecord).filter
           (fun v => is_clean_validation v)).length) :=
  ⟨by decide, determine_consensus_status_spec CONSENSUS_THRESHOLD _
    (by decide)⟩

/-- C3 counterexample: on the empty input the returned dict carries no
`total_votes`, `dominant_issues` or `all_issues` keys at all — in
particular `totalVotes` is absent rather than zero. -/
theorem determine_consensus_nil_missing_keys :
    (determine_consensus CONSENSUS_THRESHOLD []).total_votes = none ∧
    (determine_consensus CONSENSUS_THRESHOLD []).dominant_issues = none ∧
    (determine_consensus CONSENSUS_THRESHOLD []).all_issues = none ∧
    (determine_consensus CONSENSUS_THRESHOLD []).total_votes ≠ some 0 :=
  ⟨rfl, rfl, rfl, by decide⟩

/-- C3 amended: on the empty input, `determine_consensus` returns status
`NO_DATA` with an empty `issues` list and empty `comments`; the
`vote_split`, `total_votes`, `dominant_issues` and `all_issues` keys are
absent from the result. -/
theorem determine_consensus_nil (threshold : ℚ) :
    determine_consensus threshold [] =
      { status := "NO_DATA"
        vote_split := none
        total_votes := none
        issues := some []
        dominant_issues := none
        all_issues := none
        comments := [] } :=
  determine_consensus_nil_eq threshold

/-- At most every record is clean. -/
lemma clean_votes_le_length (vs : List ValidationRecord) :
    clean_votes vs ≤ vs.length :=
  List.length_filter_le _ _

/-- On a non-empty input the two ratios sum to one. -/
lemma clean_ratio_add_reject_ratio {vs : List ValidationRecord}
    (h : vs.length ≠ 0) : clean_ratio vs + reject_ratio vs = 1 := by
  have hle := clean_votes_le_length vs
  have hn : ((vs.length : ℚ)) ≠ 0 := by
    exact_mod_cast h
  rw [clean_ratio, reject_ratio, reject_votes, div_add_div_same,
    Nat.cast_sub hle]
  field_simp

/-- The status is `ACCEPTED` exactly when the clean ratio meets the
threshold. -/
lemma consensus_status_eq_accepted {threshold : ℚ}
    {vs : List ValidationRecord} :
    consensus_status threshold vs = "ACCEPTED" ↔
      clean_ratio vs ≥ threshold := by
  unfold consensus_status
  split_ifs with h1 h2 <;> simp_all

/-- The status is `REJECTED` exactly when only the reject ratio meets the
threshold. -/
lemma consensus_status_eq_rejected {threshold : ℚ}
    {vs : List ValidationRecord} :
    consensus_status threshold vs = "REJECTED" ↔
      (¬ clean_ratio vs ≥ threshold ∧ reject_ratio vs ≥ threshold) := by
  unfold consensus_status
  split_ifs with h1 h2 <;> simp_all

/-- The status is `CONFLICT` exactly when neither ratio meets the
threshold. -/
lemma consensus_status_eq_conflict {threshold : ℚ}
    {vs : List ValidationRecord} :
    consensus_status threshold vs = "CONFLICT" ↔
      (¬ clean_ratio vs ≥ threshold ∧ ¬ reject_ratio vs ≥ threshold) := by
  unfold consensus_status
  split_ifs with h1 h2 <;> simp_all

/-- C4 counterexample: with two clean and three dissenting records out of
five, raising the threshold from `2/5` to `3/5` (both in `(0,1]`) flips the
status from `ACCEPTED` straight to `REJECTED`, not toward `CONFLICT`. -/
theorem threshold_monotonicity_cex :
    (0 : ℚ) < 2 / 5 ∧ (2 / 5 : ℚ) < 3 / 5 ∧ (3 / 5 : ℚ) ≤ 1 ∧
    (determine_consensus (2 / 5)
      [approveRecord, approveRecord, endEditRecord, endEditRecord,
        endEditRecord]).status = "ACCEPTED" ∧
    (determine_consensus (3 / 5)
      [approveRecord, approveRecord, endEditRecord, endEditRecord,
        endEditRecord]).status = "REJECTED" := by
  have hne : ([approveRecord, approveRecord, endEditRecord, endEditRecord,
      endEditRecord] : List ValidationRecord) ≠ [] := by simp
  have hcv : clean_votes [approveRecord, approveRecord, endEditRecord,
      endEditRecord, endEditRecord] = 2 := by decide
  have hrv : reject_votes [approveRecord, approveRecord, endEditRecord,
      endEditRecord, endEditRecord] = 3 := by decide
  have hcr : clean_ratio [approveRecord, approveRecord, endEditRecord,
      endEditRecord, endEditRecord] = 2 / 5 := by
    rw [clean_ratio, hcv]
    norm_num
  have hrr : reject_ratio [approveRecord, approveRecord, endEditRecord,
      endEditRecord, endEditRecord] = 3 / 5 := by
    rw [reject_ratio, hrv]
    norm_num
  refine ⟨by norm_num, by norm_num, by norm_num, ?_, ?_⟩
  · rw [determine_consensus_of_ne_nil _ hne]
    exact consensus_status_eq_accepted.mpr (by rw [hcr])
  · rw [determine_consensus_of_ne_nil _ hne]
    refine consensus_status_eq_rejected.mpr ⟨?_, ?_⟩
    · rw [hcr]
      norm_num
    · rw [hrr]

/-- C4 amended: for thresholds `1/2 ≤ t1 < t2 ≤ 1` (the lower bound is
written `mkRat 1 2 = 1/2`), raising the threshold can only move the status
from `ACCEPTED`/`REJECTED` toward `CONFLICT`: an `ACCEPTED` or `REJECTED`
verdict at the higher threshold already holds at the lower one, and a
`CONFLICT` at the lower threshold persists at the higher one.  (Below `1/2`
this fails: see the counterexample.) -/
theorem threshold_monotonicity (vs : List ValidationRecord) (t1 t2 : ℚ)
    (h1 : mkRat 1 2 ≤ t1) (h12 : t1 < t2) (h2 : t2 ≤ 1) :
    ((determine_consensus t2 vs).status = "ACCEPTED" →
      (determine_consensus t1 vs).status = "ACCEPTED") ∧
    ((determine_consensus t2 vs).status = "REJECTED" →
      (determine_consensus t1 vs).status = "REJECTED") ∧
    ((determine_consensus t1 vs).status = "CONFLICT" →
      (determine_consensus t2 vs).status = "CONFLICT") := by
  by_cases h0 : vs.length = 0
  · have hnil : vs = [] := List.length_eq_zero.mp h0
    subst hnil
    refine ⟨?_, ?_, ?_⟩ <;>
      · intro h
        rw [determine_consensus_nil_eq] at h
        exact absurd h (by decide)
  · have hne : vs ≠ [] := by
      intro hnil
      exact h0 (by simp [hnil])
    have h1' : (1 : ℚ) / 2 ≤ t1 := by
      have : (mkRat 1 2 : ℚ) = 1 / 2 := by
        norm_num [Rat.mkRat_eq_div]
      linarith [this ▸ h1]
    have hsum := clean_ratio_add_reject_ratio h0
    rw [determine_consensus_of_ne_nil t1 hne,
      determine_consensus_of_ne_nil t2 hne]
    dsimp only
    refine ⟨?_, ?_, ?_⟩
    · intro h
      rw [consensus_status_eq_accepted] at h ⊢
      linarith
    · intro h
      rw [consensus_status_eq_rejected] at h ⊢
      obtain ⟨ha, hr⟩ := h
      constructor
      · intro hc
        simp only [ge_iff_le] at hc hr
        linarith
      · simp only [ge_iff_le] at hr ⊢
        linarith
    · intro h
      rw [consensus_status_eq_conflict] at h ⊢
      obtain ⟨ha, hr⟩ := h
      simp only [ge_iff_le, not_le] at ha hr ⊢
      exact ⟨lt_trans ha h12, lt_trans hr h12⟩

/-- Witness for the amended C4 at a concrete record list and the threshold
pair `mkRat 3 5 < mkRat 7 10`. -/
theorem threshold_monotonicity_witness :
    mkRat 1 2 ≤ mkRat 3 5 ∧ mkRat 3 5 < mkRat 7 10 ∧ mkRat 7 10 ≤ (1 : ℚ) ∧
    (((determine_consensus (mkRat 7 10)
        [approveRecord, endEditRecord]).status = "ACCEPTED" →
      (determine_consensus (mkRat 3 5)
        [approveRecord, endEditRecord]).status = "ACCEPTED") ∧
     ((determine_consensus (mkRat 7 10)
        [approveRecord, endEditRecord]).status = "REJECTED" →
      (determine_consensus (mkRat 3 5)
        [approveRecord, endEditRecord]).status = "REJECTED") ∧
     ((determine_consensus (mkRat 3 5)
        [approveRecord, endEditRecord]).status = "CONFLICT" →
      (determine_consensus (mkRat 7 10)
        [approveRecord, endEditRecord]).status = "CONFLICT")) :=
  ⟨by decide, by decide, by decide,
    threshold_monotonicity [approveRecord, endEditRecord] (mkRat 3 5)
      (mkRat 7 10) (by decide) (by decide) (by decide)⟩

/-- When every record is clean no issues are accumulated. -/
lemma all_issues_of_all_clean {vs : List ValidationRecord}
    (h : ∀ v ∈ vs, is_clean_validation v = true) :
    all_issues_of vs = [] := by
  induction vs with
  | nil => rfl
  | cons v vs ih =>
    rw [all_issues_of_cons, consensus_issues_of_clean (h v (by simp)),
      List.nil_append]
    exact ih (fun w hw => h w (by simp [hw]))

/-- C9 counterexample: the empty record sequence vacuously consists of clean
records only, yet the status is `NO_DATA`, not `ACCEPTED`. -/
theorem all_clean_accepted_nil_cex :
    (∀ v ∈ ([] : List ValidationRecord), is_clean_validation v = true) ∧
    (determine_consensus CONSENSUS_THRESHOLD []).status = "NO_DATA" ∧
    (determine_consensus CONSENSUS_THRESHOLD []).status ≠ "ACCEPTED" :=
  ⟨by simp, rfl, by decide⟩

/-- C9 amended: for every NON-EMPTY record sequence in which every record is
clean, and any threshold at most `1`, the status is `ACCEPTED` (the clean
ratio is `1`) and `dominant_issues` is the empty list. -/
theorem all_clean_accepted (threshold : ℚ) (vs : List ValidationRecord)
    (hne : vs ≠ []) (hcl : ∀ v ∈ vs, is_clean_validation v = true)
    (ht : threshold ≤ 1) :
    (determine_consensus threshold vs).status = "ACCEPTED" ∧
    (determine_consensus threshold vs).dominant_issues = some [] := by
  have h0 : vs.length ≠ 0 := by
    simpa [List.length_eq_zero] using hne
  have hcv : clean_votes vs = vs.length := by
    unfold clean_votes
    rw [List.filter_length_eq_length]
    exact hcl
  have hcr : clean_ratio vs = 1 := by
    rw [clean_ratio, hcv]
    exact div_self (by exact_mod_cast h0)
  rw [determine_consensus_of_ne_nil threshold hne]
  refine ⟨consensus_status_eq_accepted.mpr ?_, ?_⟩
  · rw [hcr]
    exact ht
  · simp [dominant_issues_of, all_issues_of_all_clean hcl, firstOccs]

/-- Witness for the amended C9 on one clean record at threshold `1`. -/
theorem all_clean_accepted_witness :
    ([approveRecord] : List ValidationRecord) ≠ [] ∧
    (∀ v ∈ ([approveRecord] : List ValidationRecord),
      is_clean_validation v = true) ∧
    (1 : ℚ) ≤ 1 ∧
    ((determine_consensus 1 [approveRecord]).status = "ACCEPTED" ∧
     (determine_consensus 1 [approveRecord]).dominant_issues = some []) :=
  ⟨by decide, by decide, le_refl 1,
    all_clean_accepted 1 [approveRecord] (by decide) (by decide)
      (le_refl 1)⟩

/-- C5: for every threshold and record sequence, a tag is dominant exactly
when it occurs in `all_issues` with count at least `reject_votes * 0.5`,
and each tag's count in `all_issues` equals the number of dissenting
(not-clean) records whose derived tag list contains it. -/
theorem dominant_issues_spec (threshold : ℚ) (vs : List ValidationRecord)
    (t : String) :
    (t ∈ ((determine_consensus threshold vs).dominant_issues.getD []) ↔
      (t ∈ ((determine_consensus threshold vs).all_issues.getD []) ∧
       (reject_votes vs : ℚ) * (1 / 2) ≤
         (((determine_consensus threshold vs).all_issues.getD []).count t :
           ℚ))) ∧
    ((determine_consensus threshold vs).all_issues.getD []).count t =
      (vs.filter (fun v => !is_clean_validation v &&
        decide (t ∈ consensus_issues v))).length := by
  by_cases h0 : vs = []
  · subst h0
    rw [determine_consensus_nil_eq]
    simp [reject_votes, clean_votes]
  · rw [determine_consensus_of_ne_nil threshold h0]
    dsimp only [Option.getD]
    refine ⟨?_, all_issues_count vs t⟩
    unfold dominant_issues_of
    rw [List.mem_filter, mem_firstOccs]
    simp only [decide_eq_true_eq]

/-- C6: a not-clean record with at least one removed concept contributes
exactly one `REMOVE_CONCEPT` tag, however many concepts it removed, and the
total `REMOVE_CONCEPT` count in `all_issues` is the number of such
records. -/
theorem remove_concept_once :
    (∀ v : ValidationRecord, is_clean_validation v = false →
      (v.concept_validation.getD []).any
        (fun c => c.action = some "remove") = true →
      (consensus_issues v).count "REMOVE_CONCEPT" = 1) ∧
    (∀ (threshold : ℚ) (vs : List ValidationRecord),
      ((determine_consensus threshold vs).all_issues.getD []).count
          "REMOVE_CONCEPT" =
        (vs.filter (fun v => !is_clean_validation v &&
          (v.concept_validation.getD []).any
            (fun c => c.action = some "remove"))).length) := by
  have hmem : ∀ v : ValidationRecord, is_clean_validation v = false →
      (("REMOVE_CONCEPT" ∈ consensus_issues v) ↔
        (v.concept_validation.getD []).any
          (fun c => c.action = some "remove") = true) := by
    intro v hc
    rw [consensus_issues_of_not_clean hc]
    split_ifs <;> simp_all
  constructor
  · intro v hc hany
    rw [consensus_issues_count, if_pos ((hmem v hc).mpr hany)]
  · intro threshold vs
    by_cases h0 : vs = []
    · subst h0
      rw [determine_consensus_nil_eq]
      rfl
    · rw [determine_consensus_of_ne_nil threshold h0]
      dsimp only [Option.getD]
      rw [all_issues_count vs "REMOVE_CONCEPT"]
      congr 1
      apply List.filter_congr
      intro v _
      by_cases hc : is_clean_validation v
      · simp [hc]
      · have hc' : is_clean_validation v = false := by simpa using hc
        simp only [hc', Bool.not_false, Bool.true_and]
        rw [decide_eq_decide.mpr (hmem v hc')]
        exact Bool.decide_coe _

/-- Witness for C6: a record removing two concepts still counts one
`REMOVE_CONCEPT` tag. -/
theorem remove_concept_once_witness :
    is_clean_validation twoRemoveRecord = false ∧
    (twoRemoveRecord.concept_validation.getD []).any
      (fun c => c.action = some "remove") = true ∧
    (consensus_issues twoRemoveRecord).count "REMOVE_CONCEPT" = 1 :=
  ⟨by decide, by decide,
    remove_concept_once.1 twoRemoveRecord (by decide) (by decide)⟩

/-- Truthiness of an optional boolean read with default `False`. -/
lemma getD_false_iff (o : Option Bool) : o.getD false = true ↔ o = some true := by
  cases o with
  | none => simp
  | some b => cases b <;> simp

/-- `REMOVE_FRAGMENT` is tagged exactly when the fragment was removed. -/
lemma consensus_count_remove_fragment (v : ValidationRecord) :
    (consensus_issues v).count "REMOVE_FRAGMENT" =
      if v.remove_fragment = some true then 1 else 0 := by
  by_cases hc : is_clean_validation v
  · have h := ((is_clean_validation_iff v).mp hc).1
    rw [consensus_issues_of_clean hc, if_neg h]
    rfl
  · rw [consensus_issues_of_not_clean (by simpa using hc)]
    split_ifs <;> decide

/-- `EDIT_TITLE` is tagged exactly when the title decision is `edit`. -/
lemma consensus_count_edit_title (v : ValidationRecord) :
    (consensus_issues v).count "EDIT_TITLE" =
      if v.title_decision = some "edit" then 1 else 0 := by
  by_cases hc : is_clean_validation v
  · have h := (is_clean_validation_iff v).mp hc
    rw [consensus_issues_of_clean hc, if_neg (by rw [h.2.1]; decide)]
    rfl
  · rw [consensus_issues_of_not_clean (by simpa using hc)]
    split_ifs <;> decide

/-- `EDIT_START` is tagged exactly when the start-time decision is
`edit`. -/
lemma consensus_count_edit_start (v : ValidationRecord) :
    (consensus_issues v).count "EDIT_START" =
      if v.start_time_decision = some "edit" then 1 else 0 := by
  by_cases hc : is_clean_validation v
  · have h := (is_clean_validation_iff v).mp hc
    rw [consensus_issues_of_clean hc, if_neg (by rw [h.2.2.1]; decide)]
    rfl
  · rw [consensus_issues_of_not_clean (by simpa using hc)]
    split_ifs <;> decide

/-- `EDIT_END` is tagged exactly when the end-time decision is `edit`. -/
lemma consensus_count_edit_end (v : ValidationRecord) :
    (consensus_issues v).count "EDIT_END" =
      if v.end_time_decision = some "edit" then 1 else 0 := by
  by_cases hc : is_clean_validation v
  · have h := (is_clean_validation_iff v).mp hc
    rw [consensus_issues_of_clean hc, if_neg (by rw [h.2.2.2.1]; decide)]
    rfl
  · rw [consensus_issues_of_not_clean (by simpa using hc)]
    split_ifs <;> decide

/-- `REMOVE_CONCEPT` is tagged exactly when some concept action is
`remove`. -/
lemma consensus_count_remove_concept (v : ValidationRecord) :
    (consensus_issues v).count "REMOVE_CONCEPT" =
      if (v.concept_validation.getD []).any
          (fun c => c.action = some "remove") then 1 else 0 := by
  by_cases hc : is_clean_validation v
  · have h := (is_clean_validation_iff v).mp hc
    have hany : ((v.concept_validation.getD []).any
        (fun c => c.action = some "remove")) = false := by
      rw [List.any_eq_false]
      intro c hcmem
      have hk := h.2.2.2.2 c hcmem
      simp [hk]
    rw [consensus_issues_of_clean hc, hany]
    rfl
  · rw [consensus_issues_of_not_clean (by simpa using hc)]
    split_ifs <;> decide

/-- Count of `FRAGMENT_REMOVED` in the mismatch-script tags. -/
lemma mismatch_count_fragment (v : ValidationRecord) :
    (mismatch_issues v).count "FRAGMENT_REMOVED" =
      if v.remove_fragment = some true then 1 else 0 := by
  unfold mismatch_issues
  have hbeq : ("CONCEPT_REMOVED" == "FRAGMENT_REMOVED") = false := by decide
  simp only [List.count_append, List.map_const', List.count_replicate, hbeq,
    if_false]
  split_ifs <;> simp_all [getD_false_iff]

/-- Count of `TITLE_EDIT` in the mismatch-script tags. -/
lemma mismatch_count_title (v : ValidationRecord) :
    (mismatch_issues v).count "TITLE_EDIT" =
      if v.title_decision = some "edit" then 1 else 0 := by
  unfold mismatch_issues
  have hbeq : ("CONCEPT_REMOVED" == "TITLE_EDIT") = false := by decide
  simp only [List.count_append, List.map_const', List.count_replicate, hbeq,
    if_false]
  split_ifs <;> simp_all [getD_false_iff]

/-- Count of `START_TIME_EDIT` in the mismatch-script tags. -/
lemma mismatch_count_start (v : ValidationRecord) :
    (mismatch_issues v).count "START_TIME_EDIT" =
      if v.start_time_decision = some "edit" then 1 else 0 := by
  unfold mismatch_issues
  have hbeq : ("CONCEPT_REMOVED" == "START_TIME_EDIT") = false := by decide
  simp only [List.count_append, List.map_const', List.count_replicate, hbeq,
    if_false]
  split_ifs <;> simp_all [getD_false_iff]

/-- Count of `CONCEPT_REMOVED` in the mismatch-script tags: one per removed
concept entry. -/
lemma mismatch_count_concept (v : ValidationRecord) :
    (mismatch_issues v).count "CONCEPT_REMOVED" =
      ((v.concept_validation.getD []).filter
        (fun c => c.action = some "remove")).length := by
  unfold mismatch_issues
  have hbeq : ("CONCEPT_REMOVED" == "CONCEPT_REMOVED") = true := by decide
  simp only [List.count_append, List.map_const', List.count_replicate, hbeq,
    if_true]
  split_ifs <;> simp_all

/-- C7 counterexample: a not-clean record whose only deviation is an
end-time edit gets the tag `EDIT_END` from `determine_consensus` but NO tag
at all from the mismatch script, so the two per-record tag multisets cannot
coincide under any tag renaming. -/
theorem mismatch_issues_cex :
    is_clean_validation endEditRecord = false ∧
    (consensus_issues endEditRecord).length = 1 ∧
    (mismatch_issues endEditRecord).length = 0 := by
  refine ⟨rfl, ?_, rfl⟩
  decide

/-- C7 amended: per record, the mismatch script derives the remove-fragment,
title-edit and start-time-edit tags exactly as `determine_consensus` does
(under the renamings FRAGMENT_REMOVED/REMOVE_FRAGMENT,
TITLE_EDIT/EDIT_TITLE, START_TIME_EDIT/EDIT_START), but it derives no
end-time tag at all, and it emits one `CONCEPT_REMOVED` tag per removed
concept entry whereas `determine_consensus` emits at most one
`REMOVE_CONCEPT` tag per record. -/
theorem mismatch_issues_spec (v : ValidationRecord) :
    (mismatch_issues v).count "FRAGMENT_REMOVED" =
      (consensus_issues v).count "REMOVE_FRAGMENT" ∧
    (mismatch_issues v).count "TITLE_EDIT" =
      (consensus_issues v).count "EDIT_TITLE" ∧
    (mismatch_issues v).count "START_TIME_EDIT" =
      (consensus_issues v).count "EDIT_START" ∧
    (mismatch_issues v).count "CONCEPT_REMOVED" =
      ((v.concept_validation.getD []).filter
        (fun c => c.action = some "remove")).length ∧
    (consensus_issues v).count "REMOVE_CONCEPT" =
      (if (v.concept_validation.getD []).any
          (fun c => c.action = some "remove") then 1 else 0) ∧
    (consensus_issues v).count "EDIT_END" =
      (if v.end_time_decision = some "edit" then 1 else 0) ∧
    (mismatch_issues v).all (fun s =>
      s == "FRAGMENT_REMOVED" || s == "START_TIME_EDIT" ||
      s == "TITLE_EDIT" || s == "CONCEPT_REMOVED") = true := by
  refine ⟨?_, ?_, ?_, mismatch_count_concept v,
    consensus_count_remove_concept v, consensus_count_edit_end v, ?_⟩
  · rw [mismatch_count_fragment, consensus_count_remove_fragment]
  · rw [mismatch_count_title, consensus_count_edit_title]
  · rw [mismatch_count_start, consensus_count_edit_start]
  · unfold mismatch_issues
    split_ifs <;> simp_all [List.all_eq_true]

/-- C8 counterexample: a record with every key absent is NOT clean (its
title decision is absent, not `approve`) and has a short (empty) comment,
yet the mismatch script does not count it as rejected, because its rejection
test looks at the detected issues, not at `is_clean_validation`. -/
theorem mismatch_is_rejected_cex :
    is_clean_validation emptyRecord = false ∧
    ¬ 5 < (emptyRecord.comment.getD "").length ∧
    mismatch_is_rejected emptyRecord = false := by
  refine ⟨rfl, by decide, rfl⟩

/-- C8 amended: the mismatch script counts a record as rejected iff it has a
detected issue — fragment removed, start-time edit, title edit, or at least
one removed concept (an absent or unrecognized decision value and an
end-time edit do NOT count) — or its comment is longer than 5 characters. -/
theorem mismatch_is_rejected_spec (val : ValidationRecord) :
    mismatch_is_rejected val = true ↔
      ((val.remove_fragment = some true ∨
        val.start_time_decision = some "edit" ∨
        val.title_decision = some "edit" ∨
        ∃ c ∈ val.concept_validation.getD [], c.action = some "remove") ∨
       5 < (val.comment.getD "").length) := by
  have hlen : 0 < (mismatch_issues val).length ↔
      (val.remove_fragment = some true ∨
       val.start_time_decision = some "edit" ∨
       val.title_decision = some "edit" ∨
       ∃ c ∈ val.concept_validation.getD [], c.action = some "remove") := by
    unfold mismatch_issues
    simp only [List.length_append, List.length_map,
      ← List.countP_eq_length_filter]
    split_ifs <;>
      simp_all [getD_false_iff, List.countP_pos_iff, Nat.pos_iff_ne_zero]
  rw [mismatch_is_rejected, Bool.or_eq_true, decide_eq_true_eq,
    decide_eq_true_eq, hlen]

/-- Stripping the empty string yields the empty string. -/
lemma trim_empty_string : "".trim = "" := by
  simp [String.trim, Substring.trim, String.toSubstring, Substring.toString]
  rw [Substring.takeWhileAux, Substring.takeRightWhileAux]
  simp [String.endPos, String.utf8ByteSize, String.extract]

/-- A comment that is forced to strip to empty whenever non-empty strips to
empty unconditionally. -/
lemma trim_eq_empty_of_imp {s : String} (h : ¬s = "" → s.trim = "") :
    s.trim = "" := by
  by_cases hs : s = ""
  · subst hs
    exact trim_empty_string
  · exact h hs

/-- C10: `is_validation_clean` of `initial_analysis.py` equals
`is_clean_validation` of `analysis_with_consensus.py` strengthened by the
requirement that the comment is empty after stripping whitespace; and
`is_clean_validation` itself ignores the comment field entirely. -/
theorem is_validation_clean_spec (val : ValidationRecord) :
    (is_validation_clean val =
      (is_clean_validation val && ((val.comment.getD "").trim == ""))) ∧
    (∀ c : Option String,
      is_clean_validation { val with comment := c } =
        is_clean_validation val) := by
  constructor
  · rcases val with ⟨rf, td, sd, ed, cv, cm⟩
    unfold is_validation_clean is_clean_validation
    dsimp only
    cases cv <;> cases cm <;> split_ifs <;>
      simp_all [trim_empty_string] <;>
      exact trim_eq_empty_of_imp (by assumption)
  · intro c
    rfl
